import Mathlib

/-!
Verification development for the Supertrend trading strategy
(`supertrend_strategy.py` together with `tools/numba_indicators.py`).

Numeric model: Python/numpy floats are modelled as rationals (`ℚ`); numpy
`NaN` is modelled as `none` in `Option ℚ`.  Any IEEE comparison with a `NaN`
operand is false, which the `oLT`/`oGT`/`oLE`/`oGE` helpers reproduce.
The Python built-in `round` (round-half-to-even) is modelled by `pyRound`.
-/

/-- IEEE-style `<` on possibly-NaN values: false whenever an operand is NaN. -/
def oLT : Option ℚ → Option ℚ → Bool
  | some a, some b => decide (a < b)
  | _, _ => false

/-- IEEE-style `>` on possibly-NaN values. -/
def oGT (a b : Option ℚ) : Bool := oLT b a

/-- IEEE-style `≤` on possibly-NaN values: false whenever an operand is NaN. -/
def oLE : Option ℚ → Option ℚ → Bool
  | some a, some b => decide (a ≤ b)
  | _, _ => false

/-- IEEE-style `≥` on possibly-NaN values. -/
def oGE (a b : Option ℚ) : Bool := oLE b a

/-- The Python built-in `round`: round half to even, as the interpreter does. -/
def pyRound (q : ℚ) : ℤ :=
  let f := ⌊q⌋
  let r := q - f
  if r < 1/2 then f
  else if r > 1/2 then f + 1
  else if f % 2 = 0 then f else f + 1

/-- Three-way zip, used to walk aligned numpy arrays in lockstep. -/
def zip3 : List α → List β → List γ → List (α × β × γ)
  | a :: as, b :: bs, c :: cs => (a, b, c) :: zip3 as bs cs
  | _, _, _ => []



/-! ## `tools/numba_indicators.py` -/

/-- `sma(data, period)`: windowed mean, NaN before index `period - 1`. -/
def sma (data : List ℚ) (period : ℕ) : List (Option ℚ) :=
  (List.range data.length).map fun i =>
    if i + 1 < period then none
    else some (((data.drop (i + 1 - period)).take period).sum / period)

/-- Tail of `rma`: the Wilder recursion `out[i] = α⬝data[i] + (1-α)⬝out[i-1]`. -/
def rmaAux (alpha prev : ℚ) : List ℚ → List ℚ
  | [] => []
  | x :: xs =>
    let v := alpha * x + (1 - alpha) * prev
    v :: rmaAux alpha v xs

/-- `rma(data, period)`: all-NaN when the data is shorter than the period,
otherwise NaN before `period - 1`, the SMA of the first `period` values at
`period - 1`, then the Wilder recursion. -/
def rma (data : List ℚ) (period : ℕ) : List (Option ℚ) :=
  if data.length < period ∨ period = 0 then
    List.replicate data.length none
  else
    let alpha : ℚ := 1 / period
    let seed := (data.take period).sum / period
    List.replicate (period - 1) (none : Option ℚ)
      ++ some seed :: (rmaAux alpha seed (data.drop period)).map some

/-- `tr(high, low, close)`: `high[0]-low[0]` at index 0, then
`max(high-low, |high-close[-1]|, |low-close[-1]|)`. -/
def tr_list (high low close : List ℚ) : List ℚ :=
  match high, low with
  | h0 :: _, l0 :: _ =>
    (h0 - l0) ::
      (zip3 (high.drop 1) (low.drop 1) close).map
        (fun t => max (t.1 - t.2.1) (max |t.1 - t.2.2| |t.2.1 - t.2.2|))
  | _, _ => []

/-- `atr(high, low, close, period)`: RMA of the true range. -/
def atr (high low close : List ℚ) (period : ℕ) : List (Option ℚ) :=
  rma (tr_list high low close) period

/-- One index of the Supertrend output: value, direction (1 = Down/bearish,
-1 = Up/bullish) and the carried final bands. -/
structure STOut where
  val : Option ℚ
  dir : ℚ
  fu : Option ℚ
  fl : Option ℚ
  deriving DecidableEq, Repr

/-- One iteration of the loop in `calc_supertrend_numba`: band carry-forward
followed by the direction flip, given the previous state, the previous close
`pc`, the current close `c` and the current basic bands. -/
def stStep (prev : STOut) (pc c : ℚ) (bu bl : Option ℚ) : STOut :=
  let fu : Option ℚ :=
    match bu with
    | none => none
    | some b => if oLT (some b) prev.fu || oGT (some pc) prev.fu then some b else prev.fu
  let fl : Option ℚ :=
    match bl with
    | none => none
    | some b => if oGT (some b) prev.fl || oLT (some pc) prev.fl then some b else prev.fl
  if prev.dir = 1 then
    if oGT (some c) prev.fu then ⟨fl, -1, fu, fl⟩ else ⟨fu, 1, fu, fl⟩
  else
    if oLT (some c) prev.fl then ⟨fu, 1, fu, fl⟩ else ⟨fl, -1, fu, fl⟩

/-- The loop of `calc_supertrend_numba` over `(close, basic_upper, basic_lower)`
triples, threading the previous state and previous close. -/
def stRec (prev : STOut) (pc : ℚ) : List (ℚ × Option ℚ × Option ℚ) → List STOut
  | [] => []
  | (c, bu, bl) :: rest =>
    let cur := stStep prev pc c bu bl
    cur :: stRec cur c rest

/-- The initialisation and loop of `calc_supertrend_numba` once the basic
bands are known: seed index 0 with `final_upper[0] = basic_upper[0]`,
`value[0] = final_upper[0]`, `direction[0] = 1` (Down), then iterate. -/
def stRun (close : List ℚ) (bu bl : List (Option ℚ)) : List STOut :=
  match close, bu, bl with
  | c0 :: cRest, u0 :: uRest, l0 :: lRest =>
    let first : STOut := ⟨u0, 1, u0, l0⟩
    first :: stRec first c0 (zip3 cRest uRest lRest)
  | _, _, _ => []

/-- `calc_supertrend_numba(high, low, close, atr_period, factor)`:
basic bands from `hl2 ± factor⬝ATR`, then the seeded band/direction loop. -/
def calc_supertrend_numba (high low close : List ℚ) (atr_period : ℕ)
    (factor : ℚ) : List STOut :=
  let atrv := atr high low close atr_period
  let hl2 := (high.zip low).map fun p => (p.1 + p.2) / 2
  let bu := (hl2.zip atrv).map fun p => p.2.map fun a => p.1 + factor * a
  let bl := (hl2.zip atrv).map fun p => p.2.map fun a => p.1 - factor * a
  stRun close bu bl




/-! ## RSI (from `rsi` in `tools/numba_indicators.py`, with `f_sma`,
`f_clip` and `f_abs` all true, as the strategy calls it) -/

/-- Successive differences, `np.diff`. -/
def npDiff (l : List ℚ) : List ℚ :=
  (l.zip (l.drop 1)).map fun p => p.2 - p.1

/-- One RSI output value from the smoothed up/down averages.  The guarded
cases record the float semantics of `100 - 100/(1 + u/d)`: with `d = 0` and
`u ≠ 0` the quotient is infinite and the expression evaluates to exactly 100;
with `u = d = 0` it is NaN; a NaN input stays NaN. -/
def rsiVal (u d : Option ℚ) : Option ℚ :=
  match u, d with
  | some u, some d =>
    if d = 0 then (if u = 0 then none else some 100)
    else some (100 - 100 / (1 + u / d))
  | _, _ => none

/-- The up-move series: `clip(delta, 0, max(delta))`, which keeps the
non-negative part of each difference. -/
def rsiUp (delta : List ℚ) : List ℚ := delta.map fun d => max d 0

/-- The down-move series: `|clip(delta, min(delta), 0)|`. -/
def rsiDown (delta : List ℚ) : List ℚ := delta.map fun d => |min d 0|

/-- `rsi(data, period)` with SMA smoothing: NaN at index 0, then
`100 - 100/(1 + sma(up)/sma(down))` shifted by one index. -/
def rsi (data : List ℚ) (period : ℕ) : List (Option ℚ) :=
  match data with
  | [] => []
  | _ =>
    let delta := npDiff data
    let su := sma (rsiUp delta) period
    let sd := sma (rsiDown delta) period
    none :: (su.zip sd).map fun p => rsiVal p.1 p.2

/-! ## `calculate_rma` from `supertrend_strategy.py` (pandas
`ewm(alpha=1/period, adjust=False).mean()`) -/

/-- `SupertrendStrategy.calculate_rma`: the pandas EWM recursion seeded with
`out[0] = data[0]`, defined at every index. -/
def calculate_rma (source : List ℚ) (period : ℕ) : List ℚ :=
  match source with
  | [] => []
  | x :: xs => x :: rmaAux (1 / period) x xs

/-! ## `supertrend_strategy.py`: configuration and constants -/

/-- Constructor-time configuration of `SupertrendStrategy` (the fields read
by the modelled logic; `reward_risk` is the reward/risk
multiplier). -/
structure Config where
  unix_time : ℤ
  use_trailing_stop_loss : Bool
  atr_period : ℕ
  factor : ℚ
  atr_period1 : ℕ
  factor1 : ℚ
  atr_period2 : ℕ
  factor2 : ℚ
  atr_period3 : ℕ
  factor3 : ℚ
  ts_factor : ℚ
  ts_period : ℕ
  bias : String
  profit_threshold : ℚ
  reward_risk : ℚ
  risk_percentage : ℚ
  commission_value : ℚ
  account_balance_input : ℚ
  profit_sig_bool : Bool
  take_profit_bool : Bool
  initial_capital : ℚ
  timeframe : String
  deriving DecidableEq, Repr

/-- `self.min_commission = 1.0`, a constant set in `__init__`. -/
def min_commission : ℚ := 1

/-- `self.max_percentage = 0.01`, a constant set in `__init__`. -/
def max_percentage : ℚ := 1 / 100

/-- `self.volume_multiplier = 6`, a constant set in `__init__`. -/
def volume_multiplier : ℚ := 6

/-- The account balance used throughout: the override when positive, else
the initial capital. -/
def account_bal (cfg : Config) : ℚ :=
  if cfg.account_balance_input > 0 then cfg.account_balance_input
  else cfg.initial_capital

/-- `_adjust_timeframe`. -/
def adjust_timeframe (tf : String) : ℕ :=
  if tf = "10S" then 6
  else if tf = "5S" then 12
  else if tf = "15S" then 4
  else 1

/-- `_required_history`: the maximum of the active indicator lookbacks plus
a fixed 50-bar warm-up buffer. -/
def required_history (cfg : Config) (tf : ℕ) : ℕ :=
  let base_atr := cfg.atr_period * tf
  let triple_atr := max cfg.atr_period1 (max cfg.atr_period2 cfg.atr_period3)
  let ts_atr := cfg.ts_period * tf
  let ema9_len := 9 * tf
  let rsi_len := 14
  let vol_len := 10 * tf
  let pivot_len := 7
  max base_atr (max triple_atr (max ts_atr (max ema9_len (max rsi_len
    (max vol_len pivot_len))))) + 50

/-! ## Position sizing (`calculate_position_size_long` / `_short`) -/

/-- `tolerated_risk = |risk% / 100 * balance − min_commission|`. -/
def tolerated_risk (cfg : Config) : ℚ :=
  |cfg.risk_percentage / 100 * account_bal cfg - min_commission|

/-- `p_qty_l = round(min(tolerated_risk / per_share_risk, floor(bal / entry)))`
(Python `round`, i.e. half-to-even; only the balance quotient is floored). -/
def p_qty_long (cfg : Config) (entry_price stop_price : ℚ) : ℤ :=
  let per_share_risk := |entry_price - stop_price|
  pyRound (min (tolerated_risk cfg / per_share_risk)
    ((⌊account_bal cfg / entry_price⌋ : ℤ) : ℚ))

/-- `broker_comish = min(max(p_qty * 0.005, min_commission), trade_value * 0.01)`. -/
def broker_comish_long (cfg : Config) (entry_price stop_price : ℚ) : ℚ :=
  let p : ℚ := (p_qty_long cfg entry_price stop_price : ℚ)
  min (max (p * (5 / 1000)) min_commission) ((p * entry_price) * max_percentage)

/-- `qty_tl`: the final commission-adjusted long quantity. -/
def calculate_position_size_long (cfg : Config) (entry_price stop_price : ℚ) : ℤ :=
  let per_share_risk := |entry_price - stop_price|
  pyRound (min ((tolerated_risk cfg - broker_comish_long cfg entry_price stop_price)
      / per_share_risk)
    ((⌊account_bal cfg / entry_price⌋ : ℤ) : ℚ))

/-- `p_qty_s`: identical arithmetic to the long preliminary quantity. -/
def p_qty_short (cfg : Config) (entry_price stop_price : ℚ) : ℤ :=
  let per_share_risk := |entry_price - stop_price|
  pyRound (min (tolerated_risk cfg / per_share_risk)
    ((⌊account_bal cfg / entry_price⌋ : ℤ) : ℚ))

/-- Short-side commission estimate. -/
def broker_comish_short (cfg : Config) (entry_price stop_price : ℚ) : ℚ :=
  let p : ℚ := (p_qty_short cfg entry_price stop_price : ℚ)
  min (max (p * (5 / 1000)) min_commission) ((p * entry_price) * max_percentage)

/-- `qty_ts`: the final commission-adjusted short quantity. -/
def calculate_position_size_short (cfg : Config) (entry_price stop_price : ℚ) : ℤ :=
  let per_share_risk := |entry_price - stop_price|
  pyRound (min ((tolerated_risk cfg - broker_comish_short cfg entry_price stop_price)
      / per_share_risk)
    ((⌊account_bal cfg / entry_price⌋ : ℤ) : ℚ))

/-! ## Engine state and per-bar processing -/

/-- The mutable engine state (`self.*` fields read or written by the modelled
per-bar logic; write-only diagnostic fields of the source are omitted). -/
structure EngState where
  notes : String
  daily_net_profit : ℚ
  last_net_profit : ℚ
  trade_profits : List ℚ
  account_balance_dyn : Option ℚ
  position_size : Option ℚ
  long_e : Bool
  short_e : Bool
  close_all_sig : Bool
  enter : Bool
  profit_sig : Bool
  qty_tl : Option ℚ
  qty_ts : Option ℚ
  long_target : Option ℚ
  short_target : Option ℚ
  long_stop : Option ℚ
  short_stop : Option ℚ
  supertrend_sl_check : Option ℚ
  up_trend : Bool
  dn_trend : Bool
  vstop_sl_fix : Option ℚ
  volume_first : Bool
  vol_cond : Bool
  volume_var : Bool
  open_bar_unix : Option ℤ
  alert_sent : Bool
  close_all : Bool
  long_ma : Bool
  short_ma : Bool
  ema9_one_min : Option ℚ
  rma9_one_min : Option ℚ
  high_use_pivot : Option ℚ
  low_use_pivot : Option ℚ
  strategy_position_size : ℚ
  strategy_net_profit : ℚ
  strategy_open_profit : ℚ
  bar_index : ℕ
  tf_int : ℕ
  deriving DecidableEq, Repr

/-- `daily_reset`: clears position, risk levels, trend and session flags,
appends the daily net P&L to `trade_profits` and zeroes the accumulator. -/
def daily_reset (s : EngState) : EngState :=
  { s with
    notes := ""
    account_balance_dyn := none
    position_size := none
    long_e := false
    short_e := false
    close_all_sig := false
    enter := false
    profit_sig := false
    qty_tl := none
    qty_ts := none
    long_target := none
    short_target := none
    long_stop := none
    short_stop := none
    supertrend_sl_check := none
    close_all := false
    up_trend := false
    dn_trend := false
    open_bar_unix := none
    volume_first := false
    vol_cond := false
    volume_var := false
    trade_profits := s.trade_profits ++ [s.daily_net_profit]
    daily_net_profit := 0
    alert_sent := false }

/-- The incoming bar: `ts` is the Unix timestamp in seconds and `date` is
the calendar date (`timestamp.date()`), modelled as a day ordinal. -/
structure Bar where
  ts : ℤ
  date : ℤ
  open_price : ℚ
  high : ℚ
  low : ℚ
  close : ℚ
  volume : ℚ
  deriving DecidableEq, Repr

/-- `bar_data`: the bar plus the set of keys actually present in the dict. -/
structure BarInput where
  fields : List String
  bar : Bar
  deriving DecidableEq, Repr

/-- The shape of `historical_data` that the guards inspect: its column set,
its length, and the calendar date of its second-to-last row. -/
structure HistInput where
  columns : List String
  len : ℕ
  prev_date : ℤ
  deriving DecidableEq, Repr

/-- The indicator values computed over the trimmed window at the current
index (directions use the source encoding 1 = Down, -1 = Up). -/
structure Indicators where
  curr_direction : ℚ
  prev_direction : ℚ
  curr_direction_sl : ℚ
  curr_supertrend_sl : Option ℚ
  dir1 : ℚ
  dir2 : ℚ
  dir3 : ℚ
  ema9 : Option ℚ
  rma9 : Option ℚ
  pivot_r1 : Option ℚ
  pivot_s1 : Option ℚ
  rsi_val : Option ℚ
  vol_mean : ℚ
  deriving DecidableEq, Repr

/-- The three signal kinds `process_bar` can emit. -/
inductive Signal where
  | buy
  | sell
  | closeAll
  deriving DecidableEq, Repr

/-- The order payload fields the claims inspect: the action and the notes
(the notes of a close-all order carry the exit reason). -/
structure OrderJson where
  orderAction : String
  order_notes : String
  deriving DecidableEq, Repr

/-- `_build_state_dict`: the snapshot returned to the caller. -/
structure StateDict where
  position_size : ℚ
  long_position : Bool
  short_position : Bool
  daily_net_profit : ℚ
  up_trend : Bool
  dn_trend : Bool
  long_stop : Option ℚ
  long_target : Option ℚ
  short_stop : Option ℚ
  short_target : Option ℚ
  vstop_sl_fix : Option ℚ
  profit_sig : Bool
  bar_index : ℕ
  deriving DecidableEq, Repr

/-- Build the state snapshot from the engine state. -/
def build_state_dict (s : EngState) : StateDict :=
  { position_size := s.strategy_position_size
    long_position := s.long_e
    short_position := s.short_e
    daily_net_profit := s.daily_net_profit
    up_trend := s.up_trend
    dn_trend := s.dn_trend
    long_stop := s.long_stop
    long_target := s.long_target
    short_stop := s.short_stop
    short_target := s.short_target
    vstop_sl_fix := s.vstop_sl_fix
    profit_sig := s.profit_sig
    bar_index := s.bar_index }

/-- The result dict of `process_bar`. -/
structure StratResult where
  signal : Option Signal
  order_details : Option OrderJson
  state : StateDict
  alerts : List String
  error : Option String
  deriving DecidableEq, Repr

/-- `check_support_resistance_squeeze`: true when the close sits strictly
between support and resistance; false when either level is undefined. -/
def check_support_resistance_squeeze (close : ℚ) (r1 s1 : Option ℚ) : Bool :=
  match r1, s1 with
  | some r, some sL => decide (close < r) && decide (close > sL)
  | _, _ => false

/-- `check_volume_conditions`: volume at least the window average and large
enough relative to the account size. -/
def check_volume_conditions (cfg : Config) (volume close vol_mean : ℚ) : Bool :=
  decide (volume ≥ vol_mean) &&
  decide (volume > account_bal cfg / close * volume_multiplier)

/-- Output of the entry and exit blocks: the updated state plus the signal,
order payload and alerts they contribute to the result dict. -/
structure StageOut where
  st : EngState
  sig : Option Signal
  ord : Option OrderJson
  alerts : List String
  deriving Repr

/-- Lines 1241..1304 of `process_bar`: triple-confirmation trend flags with
the up-first tie-break, trailing-stop carry, moving-average flags, pivot
levels, and the position flags recomputed from the position size. -/
def updateFlags (s : EngState) (bar : Bar) (ind : Indicators) : EngState :=
  let up1 := decide (ind.dir1 = -1) && decide (ind.dir2 = -1) && decide (ind.dir3 = -1)
  let dn0 := decide (ind.dir1 = 1) && decide (ind.dir2 = 1) && decide (ind.dir3 = 1)
  let dn1 := if up1 then false else dn0
  let up2 := if dn1 then false else up1
  let vstop := if ind.curr_supertrend_sl.isSome then ind.curr_supertrend_sl
               else s.vstop_sl_fix
  let lma :=
    match ind.ema9, ind.rma9 with
    | some e, some r =>
      decide (bar.close > bar.open_price) && decide (e > r) && decide (bar.close > e)
    | _, _ => false
  let sflag :=
    match ind.ema9, ind.rma9 with
    | some e, some r =>
      decide (bar.close < bar.open_price) && decide (e < r) && decide (bar.close < e)
    | _, _ => false
  { s with up_trend := up2, dn_trend := dn1, vstop_sl_fix := vstop,
           ema9_one_min := ind.ema9, rma9_one_min := ind.rma9,
           long_ma := lma, short_ma := sflag,
           high_use_pivot := ind.pivot_r1, low_use_pivot := ind.pivot_s1,
           enter := decide (s.strategy_position_size ≠ 0),
           long_e := decide (s.strategy_position_size > 0),
           short_e := decide (s.strategy_position_size < 0) }

/-- The entry block (lines 1307..1415): evaluated only when flat, not
squeezed, with the volume gate passed and no pending profit exit.  A failed
sizing check (`qty ≤ 0`) raises inside the inner `try`, so the stop, target
and `qty` fields written before the check survive while no entry happens. -/
def entryStage (cfg : Config) (s : EngState) (bar : Bar) (ind : Indicators) : StageOut :=
  let level_squeeze := check_support_resistance_squeeze bar.close s.high_use_pivot s.low_use_pivot
  let vcond := check_volume_conditions cfg bar.volume bar.close ind.vol_mean
  if !s.enter && !level_squeeze && vcond && !s.profit_sig then
    let long_signal := !(decide (ind.curr_direction = 1)) && decide (ind.prev_direction = 1)
        && !(decide (ind.curr_direction_sl = 1)) && ind.curr_supertrend_sl.isSome
    let short_signal := decide (ind.curr_direction = 1) && !(decide (ind.prev_direction = 1))
        && decide (ind.curr_direction_sl = 1) && ind.curr_supertrend_sl.isSome
    if !s.short_ma && long_signal && oGT (some bar.close) s.ema9_one_min
        && oGT (some bar.close) s.rma9_one_min && decide (cfg.bias ≠ ("Short" : String))
        && s.up_trend && decide (bar.close > bar.open_price) then
      match ind.curr_supertrend_sl with
      | some sl =>
        let stop := sl - 2 / 100
        let target := bar.close + cfg.reward_risk * (bar.close - stop)
        let s1 := { s with long_stop := some stop, long_target := some target }
        let qty : ℤ := calculate_position_size_long cfg bar.close stop
        let s2 := { s1 with qty_tl := some (qty : ℚ) }
        if qty ≤ 0 then ⟨s2, none, none, [("ERROR: Long entry failed")]⟩
        else
          ⟨{ s2 with long_e := true, strategy_position_size := (qty : ℚ),
                     alert_sent := true, notes := ("supertrend Long") },
           some Signal.buy, some ⟨("BUY"), ("supertrend Long")⟩, [("LONG ENTRY")]⟩
      | none => ⟨s, none, none, []⟩
    else if !s.long_ma && short_signal && oLT (some bar.close) s.ema9_one_min
        && oLT (some bar.close) s.rma9_one_min && decide (cfg.bias ≠ ("Long" : String))
        && s.dn_trend && decide (bar.close < bar.open_price) then
      match ind.curr_supertrend_sl with
      | some sl =>
        let stop := sl + 2 / 100
        let target := bar.close - cfg.reward_risk * (stop - bar.close)
        let s1 := { s with short_stop := some stop, short_target := some target }
        let qty : ℤ := calculate_position_size_short cfg bar.close stop
        let s2 := { s1 with qty_ts := some (qty : ℚ) }
        if qty ≤ 0 then ⟨s2, none, none, [("ERROR: Short entry failed")]⟩
        else
          ⟨{ s2 with short_e := true, strategy_position_size := -(qty : ℚ),
                     alert_sent := true, notes := ("supertrend short") },
           some Signal.sell, some ⟨("SELL"), ("supertrend short")⟩, [("SHORT ENTRY")]⟩
      | none => ⟨s, none, none, []⟩
    else ⟨s, none, none, []⟩
  else ⟨s, none, none, []⟩

/-- The trailing-stop check (lines 1422..1426), active only when the
trailing-stop mode is enabled. -/
def trail_reason (cfg : Config) (s : EngState) (low high v : ℚ) : Option String :=
  if cfg.use_trailing_stop_loss then
    if s.long_e && decide (low ≤ v) then some ("crossdownStop close_all")
    else if s.short_e && decide (high ≥ v) then some ("crossUpStop close_all")
    else none
  else none

/-- The profit-threshold break (lines 1429..1432). -/
def profit_break (cfg : Config) (s : EngState) : Bool :=
  let profit_close := s.strategy_open_profit + s.strategy_net_profit
  decide (profit_close ≥ cfg.profit_threshold) ||
  decide (profit_close ≤ -(s.account_balance_dyn.getD 0 * (cfg.risk_percentage / 100)))

/-- The long take-profit / RSI block (lines 1439..1446), overwriting any
earlier reason when it matches. -/
def long_tp_reason (s : EngState) (high close : ℚ) (rsiv : Option ℚ)
    (r : Option String) : Option String :=
  if s.long_e && !s.close_all then
    match s.long_target with
    | some t =>
      if decide (high ≥ t) then some ("crossupTP close_all")
      else if decide (close ≥ t) && oGE rsiv (some 80) then some ("exitRSI close_all")
      else r
    | none => r
  else r

/-- The short take-profit / RSI block (lines 1448..1455). -/
def short_tp_reason (s : EngState) (low close : ℚ) (rsiv : Option ℚ)
    (r : Option String) : Option String :=
  if s.short_e && !s.close_all then
    match s.short_target with
    | some t =>
      if decide (low ≤ t) then some ("crossdownTP close_all")
      else if decide (close ≤ t) && oLE rsiv (some 20) then some ("exitRSI close_all")
      else r
    | none => r
  else r

/-- The sequence of `exit_reason` assignments (lines 1419..1455): each later
matching block overwrites the reason set by an earlier one. -/
def exit_reason_calc (cfg : Config) (s : EngState) (bar : Bar) (v : ℚ)
    (rsiv : Option ℚ) : Option String :=
  let r1 := trail_reason cfg s bar.low bar.high v
  let r2 := if cfg.profit_sig_bool && profit_break cfg s && !s.close_all
            then some ("profitSig") else r1
  let r3 := long_tp_reason s bar.high bar.close rsiv r2
  short_tp_reason s bar.low bar.close rsiv r3

/-- `profit_sig` is latched whenever the profit branch condition holds, even
when its reason is later overwritten. -/
def exit_profit_sig (cfg : Config) (s : EngState) : Bool :=
  if cfg.profit_sig_bool && profit_break cfg s && !s.close_all then true
  else s.profit_sig

/-- The exit block (lines 1417..1485): runs only when in a position with a
defined trailing value; the close executes once, guarded by `close_all`. -/
def exitStage (cfg : Config) (s : EngState) (bar : Bar) (rsiv : Option ℚ) : StageOut :=
  if s.enter then
    match s.vstop_sl_fix with
    | some v =>
      let reason := exit_reason_calc cfg s bar v rsiv
      let s1 := { s with profit_sig := exit_profit_sig cfg s }
      match reason with
      | some msg =>
        if !s1.close_all then
          ⟨{ s1 with strategy_position_size := 0, long_e := false, short_e := false,
                     close_all := true, close_all_sig := false },
           some Signal.closeAll, some ⟨("close_all"), msg⟩, [("EXIT: ") ++ msg]⟩
        else ⟨s1, none, none, []⟩
      | none => ⟨s1, none, none, []⟩
    | none => ⟨s, none, none, []⟩
  else ⟨s, none, none, []⟩

/-- The conditions of the four exit checks, packaged for the statement of the
effective exit priority (these follow the wording of the amended claim; the
executable translation of the source is `exit_reason_calc`). -/
def tp_long_hit (s : EngState) (high : ℚ) : Bool :=
  match s.long_target with | some t => decide (high ≥ t) | none => false

/-- Long alternate exit: target touched at the close with RSI ≥ 80. -/
def rsi_long_hit (s : EngState) (close : ℚ) (rsiv : Option ℚ) : Bool :=
  match s.long_target with
  | some t => decide (close ≥ t) && oGE rsiv (some 80)
  | none => false

/-- Short take-profit touch. -/
def tp_short_hit (s : EngState) (low : ℚ) : Bool :=
  match s.short_target with | some t => decide (low ≤ t) | none => false

/-- Short alternate exit: target touched at the close with RSI ≤ 20. -/
def rsi_short_hit (s : EngState) (close : ℚ) (rsiv : Option ℚ) : Bool :=
  match s.short_target with
  | some t => decide (close ≤ t) && oLE rsiv (some 20)
  | none => false

/-- Long trailing-stop breach (only with trailing-stop mode enabled). -/
def trail_long_hit (cfg : Config) (s : EngState) (low v : ℚ) : Bool :=
  cfg.use_trailing_stop_loss && s.long_e && decide (low ≤ v)

/-- Short trailing-stop breach. -/
def trail_short_hit (cfg : Config) (s : EngState) (high v : ℚ) : Bool :=
  cfg.use_trailing_stop_loss && s.short_e && decide (high ≥ v)

/-- Profit-threshold breach with profit exits enabled. -/
def profit_hit (cfg : Config) (s : EngState) : Bool :=
  cfg.profit_sig_bool && profit_break cfg s

/-- The effective exit priority, written per the amended claim: the close
reason is the LAST matching block in source order, i.e. the take-profit/RSI
blocks override the profit-threshold check, which overrides the
trailing-stop check (within a take-profit block the touch beats the RSI
variant). -/
def last_match_reason (cfg : Config) (s : EngState) (bar : Bar) (v : ℚ)
    (rsiv : Option ℚ) : Option String :=
  if s.short_e && tp_short_hit s bar.low then some ("crossdownTP close_all")
  else if s.short_e && rsi_short_hit s bar.close rsiv then some ("exitRSI close_all")
  else if s.long_e && tp_long_hit s bar.high then some ("crossupTP close_all")
  else if s.long_e && rsi_long_hit s bar.close rsiv then some ("exitRSI close_all")
  else if profit_hit cfg s then some ("profitSig")
  else if trail_long_hit cfg s bar.low v then some ("crossdownStop close_all")
  else if trail_short_hit cfg s bar.high v then some ("crossUpStop close_all")
  else none

/-- The decision part of `process_bar` after the activation gate: indicator
driven flag updates, then entries, then exits, then the snapshot. -/
def core (cfg : Config) (s : EngState) (bar : Bar) (ind : Indicators) :
    StratResult × EngState :=
  let s1 := updateFlags s bar ind
  let e := entryStage cfg s1 bar ind
  let x := exitStage cfg e.st bar ind.rsi_val
  ({ signal := if x.sig.isSome then x.sig else e.sig,
     order_details := if x.sig.isSome then x.ord else e.ord,
     state := build_state_dict x.st,
     alerts := e.alerts ++ x.alerts, error := none }, x.st)

/-- The bar-dict keys `process_bar` requires. -/
def required_bar_fields : List String :=
  ["timestamp", "open", "high", "low", "close", "volume"]

/-- The history columns `process_bar` requires. -/
def required_hist_columns : List String :=
  ["open", "high", "low", "close", "volume"]

/-- `process_bar`: validation, history-length guard, day-boundary reset,
bookkeeping, activation gate, then the decision core.  `fault` models an
unexpected internal error raised while computing indicators; like every
other failure it is caught at the call boundary and reported in `error`
with a fresh state snapshot. -/
def process_bar (cfg : Config) (s : EngState) (inp : BarInput) (hist : HistInput)
    (ind : Indicators) (fault : Option String) : StratResult × EngState :=
  if (required_bar_fields.filter fun f => !inp.fields.contains f) ≠ [] then
    ({ signal := none, order_details := none, state := build_state_dict s,
       alerts := [], error := some ("Missing required bar data fields") }, s)
  else if (required_hist_columns.filter fun c => !hist.columns.contains c) ≠ [] then
    ({ signal := none, order_details := none, state := build_state_dict s,
       alerts := [], error := some ("Missing required historical data columns") }, s)
  else if hist.len < required_history cfg s.tf_int then
    ({ signal := none, order_details := none, state := build_state_dict s,
       alerts := [], error := some ("Insufficient historical data") }, s)
  else
    let s1 := if hist.len > 1 ∧ hist.columns.contains ("timestamp" : String)
                 ∧ inp.bar.date > hist.prev_date
              then daily_reset s else s
    let bal := if s1.account_balance_dyn = none then some (account_bal cfg)
               else s1.account_balance_dyn
    let current_net := s1.strategy_net_profit + s1.strategy_open_profit
    let s4 := { s1 with
        bar_index := s1.bar_index + 1,
        tf_int := adjust_timeframe cfg.timeframe,
        account_balance_dyn := bal,
        daily_net_profit := s1.daily_net_profit + (current_net - s1.last_net_profit),
        last_net_profit := current_net }
    if ¬ (inp.bar.ts > cfg.unix_time) then
      ({ signal := none, order_details := none, state := build_state_dict s4,
         alerts := [], error := none }, s4)
    else
      match fault with
      | some msg =>
        ({ signal := none, order_details := none, state := build_state_dict s4,
           alerts := [], error := some (("Processing error: ") ++ msg) }, s4)
      | none => core cfg s4 inp.bar ind

/-- One scheduled call to `process_bar`. -/
structure BarCall where
  inp : BarInput
  hist : HistInput
  ind : Indicators
  fault : Option String
  deriving Repr

/-- Replay a sequence of `process_bar` calls, threading the engine state. -/
def runBars (cfg : Config) : EngState → List BarCall → List StratResult × EngState
  | s, [] => ([], s)
  | s, c :: rest =>
    let pr := process_bar cfg s c.inp c.hist c.ind c.fault
    let rr := runBars cfg pr.2 rest
    (pr.1 :: rr.1, rr.2)

/-! ## Concrete instances used by the concrete-input theorems -/

/-- A freshly constructed engine state: every flag cleared, every level
undefined, counters at zero (the starting values set by the constructor). -/
def baseState : EngState :=
  { notes := ("tick-boom"), daily_net_profit := 0, last_net_profit := 0, trade_profits := [],
    account_balance_dyn := none, position_size := none, long_e := false, short_e := false,
    close_all_sig := false, enter := false, profit_sig := false, qty_tl := none, qty_ts := none,
    long_target := none, short_target := none, long_stop := none, short_stop := none,
    supertrend_sl_check := none, up_trend := false, dn_trend := false, vstop_sl_fix := none,
    volume_first := false, vol_cond := false, volume_var := false, open_bar_unix := none,
    alert_sent := false, close_all := false, long_ma := false, short_ma := false,
    ema9_one_min := none, rma9_one_min := none, high_use_pivot := none, low_use_pivot := none,
    strategy_position_size := 0, strategy_net_profit := 0, strategy_open_profit := 0,
    bar_index := 0, tf_int := 1 }

/-- The constructor defaults with a 50 000 balance override and 1 % risk:
the configuration of the position-sizing boundary example. -/
def cfgC1 : Config :=
  { unix_time := 0, use_trailing_stop_loss := false,
    atr_period := 10, factor := 3, atr_period1 := 10, factor1 := 1,
    atr_period2 := 11, factor2 := 2, atr_period3 := 12, factor3 := 3,
    ts_factor := 3/2, ts_period := 3, bias := ("both"), profit_threshold := 300,
    reward_risk := 3/2, risk_percentage := 1, commission_value := 0,
    account_balance_input := 50000, profit_sig_bool := true, take_profit_bool := true,
    initial_capital := 25000, timeframe := ("1") }

/-- A configuration with 1-bar indicator periods (required history 64),
trailing stops on and profit exits off, for the double-exit scenario. -/
def cfgC3 : Config :=
  { unix_time := 0, use_trailing_stop_loss := true,
    atr_period := 1, factor := 1, atr_period1 := 1, factor1 := 1,
    atr_period2 := 1, factor2 := 1, atr_period3 := 1, factor3 := 1,
    ts_factor := 1, ts_period := 1, bias := ("both"), profit_threshold := 300,
    reward_risk := 3/2, risk_percentage := 1, commission_value := 0,
    account_balance_input := 50000, profit_sig_bool := false, take_profit_bool := true,
    initial_capital := 25000, timeframe := ("1") }

/-- A long position of 5 shares with target 12, no pending exit. -/
def sC3 : EngState :=
  { baseState with strategy_position_size := 5, long_target := some 12,
                   account_balance_dyn := some 50000 }

/-- A bar that simultaneously breaches the trailing stop (low 9 ≤ 10) and
touches the take-profit target (high 13 ≥ 12). -/
def barC3 : Bar :=
  { ts := 1, date := 5, open_price := 11, high := 13, low := 9, close := 11, volume := 0 }

/-- The bar dict with all required keys present. -/
def inpC3 : BarInput := { fields := required_bar_fields, bar := barC3 }

/-- A 64-bar history whose second-to-last row is on the same date. -/
def histC3 : HistInput :=
  { columns := ("timestamp") :: required_hist_columns, len := 64, prev_date := 5 }

/-- Indicator values placing the trailing Supertrend at 10. -/
def indC3 : Indicators :=
  { curr_direction := 1, prev_direction := 1, curr_direction_sl := 1,
    curr_supertrend_sl := some 10, dir1 := 1, dir2 := 1, dir3 := 1,
    ema9 := none, rma9 := none, pivot_r1 := none, pivot_s1 := none,
    rsi_val := none, vol_mean := 0 }

/-- A configuration with a 100-currency balance override: 1 % risk minus the
minimum commission leaves a tolerated risk of zero, so any computed entry
size is 0 and the entry is rejected. -/
def cfgC7 : Config :=
  { unix_time := 0, use_trailing_stop_loss := false,
    atr_period := 1, factor := 1, atr_period1 := 1, factor1 := 1,
    atr_period2 := 1, factor2 := 1, atr_period3 := 1, factor3 := 1,
    ts_factor := 1, ts_period := 1, bias := ("both"), profit_threshold := 300,
    reward_risk := 3/2, risk_percentage := 1, commission_value := 0,
    account_balance_input := 100, profit_sig_bool := true, take_profit_bool := true,
    initial_capital := 25000, timeframe := ("1") }

/-- A bullish bar satisfying every long-entry condition. -/
def barC7 : Bar :=
  { ts := 1, date := 5, open_price := 9, high := 10, low := 9, close := 10, volume := 100 }

/-- The bar dict with all required keys present. -/
def inpC7 : BarInput := { fields := required_bar_fields, bar := barC7 }

/-- A 64-bar same-date history. -/
def histC7 : HistInput :=
  { columns := ("timestamp") :: required_hist_columns, len := 64, prev_date := 5 }

/-- Indicators with a fresh main-Supertrend flip to Up, trailing variant Up
at value 10, unanimous triple confirmation, and cheap moving averages. -/
def indC7 : Indicators :=
  { curr_direction := -1, prev_direction := 1, curr_direction_sl := -1,
    curr_supertrend_sl := some 10, dir1 := -1, dir2 := -1, dir3 := -1,
    ema9 := some 1, rma9 := some 1, pivot_r1 := none, pivot_s1 := none,
    rsi_val := none, vol_mean := 0 }

/-- A history too short for `cfgC1` (which needs 64 bars). -/
def histC6 : HistInput :=
  { columns := ("timestamp") :: required_hist_columns, len := 10, prev_date := 5 }

/-- cfgC3 with an activation timestamp far in the future: the daily-reset
check still runs, the rest of the bar is gated off. -/
def cfgC4 : Config := { cfgC3 with unix_time := 1000000000 }

/-- A state carrying a prior-day P&L of 7 with one earlier day recorded. -/
def sC4 : EngState :=
  { baseState with daily_net_profit := 7, trade_profits := [3],
                   strategy_net_profit := 2, strategy_open_profit := 1 }

/-- A bar on the next calendar day (6 after 5). -/
def barC4a : Bar :=
  { ts := 1, date := 6, open_price := 1, high := 1, low := 1, close := 1, volume := 0 }

/-- The same-day counterpart. -/
def barC4b : Bar :=
  { ts := 1, date := 5, open_price := 1, high := 1, low := 1, close := 1, volume := 0 }

/-- Next-day bar dict. -/
def inpC4a : BarInput := { fields := required_bar_fields, bar := barC4a }

/-- Same-day bar dict. -/
def inpC4b : BarInput := { fields := required_bar_fields, bar := barC4b }

/-- A state in a long position with the trailing value and target set, as it
stands when the exit block is entered. -/
def sC3e : EngState :=
  { sC3 with enter := true, long_e := true, vstop_sl_fix := some 10 }

/-- The scheduled call reused for the single-exit-per-day run. -/
def callC10 : BarCall := { inp := inpC3, hist := histC3, ind := indC3, fault := none }

/-! ## Supporting lemmas -/

theorem pyRound_bounds (q : ℚ) : ⌊q⌋ ≤ pyRound q ∧ pyRound q ≤ ⌊q⌋ + 1 := by
  unfold pyRound
  dsimp only
  split_ifs <;> omega

theorem zip3_length (as : List α) (bs : List β) (cs : List γ) :
    (zip3 as bs cs).length = min as.length (min bs.length cs.length) := by
  induction as generalizing bs cs with
  | nil => simp [zip3]
  | cons a as ih =>
    cases bs with
    | nil => simp [zip3]
    | cons b bs =>
      cases cs with
      | nil => simp [zip3]
      | cons c cs => simp [zip3, ih]; omega
theorem zip3_getD (as : List α) (bs : List β) (cs : List γ) (i : ℕ)
    (da : α) (db : β) (dc : γ) (h : i < (zip3 as bs cs).length) :
    (zip3 as bs cs).getD i (da, db, dc)
      = (as.getD i da, bs.getD i db, cs.getD i dc) := by
  induction as generalizing bs cs i with
  | nil => simp [zip3] at h
  | cons a as ih =>
    cases bs with
    | nil => simp [zip3] at h
    | cons b bs =>
      cases cs with
      | nil => simp [zip3] at h
      | cons c cs =>
        cases i with
        | zero => simp [zip3]
        | succ j =>
          simp only [zip3, List.getD_cons_succ]
          exact ih bs cs j (by simpa [zip3] using h)
theorem stRec_length (prev : STOut) (pc : ℚ)
    (l : List (ℚ × Option ℚ × Option ℚ)) : (stRec prev pc l).length = l.length := by
  induction l generalizing prev pc with
  | nil => rfl
  | cons x rest ih => obtain ⟨c, bu, bl⟩ := x; simp [stRec, ih]
/-- Every element after the head of a Supertrend run is produced from its
predecessor by `stStep` with the matching close. -/
theorem stRec_consecutive (l : List (ℚ × Option ℚ × Option ℚ))
    (prev : STOut) (pc : ℚ) (i : ℕ) (hi : i < l.length) :
    ∃ pc', (prev :: stRec prev pc l).getD (i + 1) ⟨none, 1, none, none⟩
      = stStep ((prev :: stRec prev pc l).getD i ⟨none, 1, none, none⟩) pc'
          (l.getD i (0, none, none)).1
          (l.getD i (0, none, none)).2.1
          (l.getD i (0, none, none)).2.2 := by
  induction l generalizing prev pc i with
  | nil => simp at hi
  | cons x rest ih =>
    obtain ⟨c, bu, bl⟩ := x
    cases i with
    | zero => exact ⟨pc, rfl⟩
    | succ j =>
      have hj : j < rest.length := by simpa using hi
      obtain ⟨pc', h⟩ := ih (stStep prev pc c bu bl) c j hj
      exact ⟨pc', by simpa [stRec] using h⟩
/-- Case analysis of one `stStep`: the new direction and value are the
function of the current close and the previous bands/direction that the
direction logic of the source spells out. -/
theorem stStep_cases (prev : STOut) (pc c : ℚ) (bu bl : Option ℚ) :
    let cur := stStep prev pc c bu bl
    (prev.dir = 1 →
      (oGT (some c) prev.fu = true → cur.dir = -1 ∧ cur.val = cur.fl) ∧
      (oGT (some c) prev.fu = false → cur.dir = 1 ∧ cur.val = cur.fu)) ∧
    (prev.dir ≠ 1 →
      (oLT (some c) prev.fl = true → cur.dir = 1 ∧ cur.val = cur.fu) ∧
      (oLT (some c) prev.fl = false → cur.dir = -1 ∧ cur.val = cur.fl)) := by
  unfold stStep
  split_ifs with h1 h2 h2 <;> simp_all

theorem floor_min (a b : ℚ) : ⌊min a b⌋ = min ⌊a⌋ ⌊b⌋ := by
  rcases le_total a b with h | h
  · rw [min_eq_left h, min_eq_left (Int.floor_le_floor h)]
  · rw [min_eq_right h, min_eq_right (Int.floor_le_floor h)]

theorem stRun_consecutive (close : List ℚ) (bu bl : List (Option ℚ)) (i : ℕ)
    (hi : i + 1 < (stRun close bu bl).length) :
    ∃ pc bu' bl', (stRun close bu bl).getD (i + 1) ⟨none, 1, none, none⟩
      = stStep ((stRun close bu bl).getD i ⟨none, 1, none, none⟩) pc
          (close.getD (i + 1) 0) bu' bl' := by
  match close, bu, bl with
  | [], _, _ => simp [stRun] at hi
  | _ :: _, [], _ => simp [stRun] at hi
  | _ :: _, _ :: _, [] => simp [stRun] at hi
  | c0 :: cRest, u0 :: uRest, l0 :: lRest =>
    have hlen : i < (zip3 cRest uRest lRest).length := by
      have := hi
      simp only [stRun, List.length_cons, stRec_length] at this
      omega
    obtain ⟨pc', h⟩ := stRec_consecutive (zip3 cRest uRest lRest) ⟨u0, 1, u0, l0⟩ c0 i hlen
    rw [zip3_getD cRest uRest lRest i 0 none none hlen] at h
    exact ⟨pc', uRest.getD i none, lRest.getD i none, by simpa [stRun] using h⟩

/-- C2: for every index `i > 0`, the Supertrend direction and value are the
stated function of the current close, the previous final bands and the
previous direction: from Down (1), a close above the previous final upper
band flips to Up (-1) with value the current final lower band, else Down is
kept with value the final upper band; from Up, a close below the previous
final lower band flips to Down with value the final upper band, else Up is
kept with value the final lower band. -/
theorem c2_supertrend_direction (high low close : List ℚ) (atr_period : ℕ) (factor : ℚ)
    (i : ℕ) (hi : i + 1 < (calc_supertrend_numba high low close atr_period factor).length) :
    (((calc_supertrend_numba high low close atr_period factor).getD i ⟨none, 1, none, none⟩).dir = 1 →
      (oGT (some (close.getD (i + 1) 0))
          ((calc_supertrend_numba high low close atr_period factor).getD i ⟨none, 1, none, none⟩).fu = true →
        ((calc_supertrend_numba high low close atr_period factor).getD (i + 1) ⟨none, 1, none, none⟩).dir = -1 ∧
        ((calc_supertrend_numba high low close atr_period factor).getD (i + 1) ⟨none, 1, none, none⟩).val
          = ((calc_supertrend_numba high low close atr_period factor).getD (i + 1) ⟨none, 1, none, none⟩).fl) ∧
      (oGT (some (close.getD (i + 1) 0))
          ((calc_supertrend_numba high low close atr_period factor).getD i ⟨none, 1, none, none⟩).fu = false →
        ((calc_supertrend_numba high low close atr_period factor).getD (i + 1) ⟨none, 1, none, none⟩).dir = 1 ∧
        ((calc_supertrend_numba high low close atr_period factor).getD (i + 1) ⟨none, 1, none, none⟩).val
          = ((calc_supertrend_numba high low close atr_period factor).getD (i + 1) ⟨none, 1, none, none⟩).fu)) ∧
    (((calc_supertrend_numba high low close atr_period factor).getD i ⟨none, 1, none, none⟩).dir ≠ 1 →
      (oLT (some (close.getD (i + 1) 0))
          ((calc_supertrend_numba high low close atr_period factor).getD i ⟨none, 1, none, none⟩).fl = true →
        ((calc_supertrend_numba high low close atr_period factor).getD (i + 1) ⟨none, 1, none, none⟩).dir = 1 ∧
        ((calc_supertrend_numba high low close atr_period factor).getD (i + 1) ⟨none, 1, none, none⟩).val
          = ((calc_supertrend_numba high low close atr_period factor).getD (i + 1) ⟨none, 1, none, none⟩).fu) ∧
      (oLT (some (close.getD (i + 1) 0))
          ((calc_supertrend_numba high low close atr_period factor).getD i ⟨none, 1, none, none⟩).fl = false →
        ((calc_supertrend_numba high low close atr_period factor).getD (i + 1) ⟨none, 1, none, none⟩).dir = -1 ∧
        ((calc_supertrend_numba high low close atr_period factor).getD (i + 1) ⟨none, 1, none, none⟩).val
          = ((calc_supertrend_numba high low close atr_period factor).getD (i + 1) ⟨none, 1, none, none⟩).fl)) := by
  simp only [calc_supertrend_numba] at hi ⊢
  obtain ⟨pc, bu', bl', h⟩ := stRun_consecutive close _ _ i hi
  rw [h]
  exact stStep_cases _ pc _ bu' bl'

/-- Witness for C2 at a concrete 2-bar series with unit ATR period: the
previous direction is Down, the close rises above the previous final upper
band, and the direction flips to Up with value the final lower band. -/
theorem c2_witness :
    (0 + 1 < (calc_supertrend_numba [3, 10] [1, 8] [2, 9] 1 1).length) ∧
    ((((calc_supertrend_numba [3, 10] [1, 8] [2, 9] 1 1).getD 0 ⟨none, 1, none, none⟩).dir = 1 →
      (oGT (some (([2, 9] : List ℚ).getD (0 + 1) 0))
          ((calc_supertrend_numba [3, 10] [1, 8] [2, 9] 1 1).getD 0 ⟨none, 1, none, none⟩).fu = true →
        ((calc_supertrend_numba [3, 10] [1, 8] [2, 9] 1 1).getD (0 + 1) ⟨none, 1, none, none⟩).dir = -1 ∧
        ((calc_supertrend_numba [3, 10] [1, 8] [2, 9] 1 1).getD (0 + 1) ⟨none, 1, none, none⟩).val
          = ((calc_supertrend_numba [3, 10] [1, 8] [2, 9] 1 1).getD (0 + 1) ⟨none, 1, none, none⟩).fl) ∧
      (oGT (some (([2, 9] : List ℚ).getD (0 + 1) 0))
          ((calc_supertrend_numba [3, 10] [1, 8] [2, 9] 1 1).getD 0 ⟨none, 1, none, none⟩).fu = false →
        ((calc_supertrend_numba [3, 10] [1, 8] [2, 9] 1 1).getD (0 + 1) ⟨none, 1, none, none⟩).dir = 1 ∧
        ((calc_supertrend_numba [3, 10] [1, 8] [2, 9] 1 1).getD (0 + 1) ⟨none, 1, none, none⟩).val
          = ((calc_supertrend_numba [3, 10] [1, 8] [2, 9] 1 1).getD (0 + 1) ⟨none, 1, none, none⟩).fu)) ∧
    (((calc_supertrend_numba [3, 10] [1, 8] [2, 9] 1 1).getD 0 ⟨none, 1, none, none⟩).dir ≠ 1 →
      (oLT (some (([2, 9] : List ℚ).getD (0 + 1) 0))
          ((calc_supertrend_numba [3, 10] [1, 8] [2, 9] 1 1).getD 0 ⟨none, 1, none, none⟩).fl = true →
        ((calc_supertrend_numba [3, 10] [1, 8] [2, 9] 1 1).getD (0 + 1) ⟨none, 1, none, none⟩).dir = 1 ∧
        ((calc_supertrend_numba [3, 10] [1, 8] [2, 9] 1 1).getD (0 + 1) ⟨none, 1, none, none⟩).val
          = ((calc_supertrend_numba [3, 10] [1, 8] [2, 9] 1 1).getD (0 + 1) ⟨none, 1, none, none⟩).fu) ∧
      (oLT (some (([2, 9] : List ℚ).getD (0 + 1) 0))
          ((calc_supertrend_numba [3, 10] [1, 8] [2, 9] 1 1).getD 0 ⟨none, 1, none, none⟩).fl = false →
        ((calc_supertrend_numba [3, 10] [1, 8] [2, 9] 1 1).getD (0 + 1) ⟨none, 1, none, none⟩).dir = -1 ∧
        ((calc_supertrend_numba [3, 10] [1, 8] [2, 9] 1 1).getD (0 + 1) ⟨none, 1, none, none⟩).val
          = ((calc_supertrend_numba [3, 10] [1, 8] [2, 9] 1 1).getD (0 + 1) ⟨none, 1, none, none⟩).fl))) := by
  refine ⟨?_, c2_supertrend_direction [3, 10] [1, 8] [2, 9] 1 1 0 ?_⟩ <;>
    norm_num [calc_supertrend_numba, stRun, stRec, atr, tr_list, rma, rmaAux, zip3,
      List.replicate, stRec_length, zip3_length]

/-- C1 counterexample: at entry 100 / stop 98 with 1 % risk on a 50 000
balance, the preliminary quantity of the code is `round(min(499/2, 500)) = 250`
(Python half-to-even rounding), not the claimed `floor(min(499/2, 500)) = 249`,
and the commission estimate is `clamp(250*0.005, 1, 250) = 1.25`, not 1.245. -/
theorem c1_counterexample :
    p_qty_long cfgC1 100 98 = 250 ∧
    ⌊min (tolerated_risk cfgC1 / |(100 : ℚ) - 98|) (account_bal cfgC1 / 100)⌋ = 249 ∧
    ((250 : ℤ) ≠ 249) ∧
    broker_comish_long cfgC1 100 98 = 5/4 ∧ ((5 : ℚ)/4 ≠ 1245/1000) := by
  norm_num [p_qty_long, tolerated_risk, account_bal, broker_comish_long, min_commission,
    max_percentage, pyRound, cfgC1]

/-- C1 (amended): at the boundary input the code computes preliminary
quantity 250, commission 1.25 and final quantity 249; in general the
preliminary quantity is the half-to-even rounding of
`min(tolerated_risk / per_share_risk, floor(balance / entry))`, which equals
`floor(min(tolerated_risk / per_share_risk, balance / entry))` or that floor
plus one. -/
theorem c1_position_sizing (cfg : Config) (entry_price stop_price : ℚ)
    (hpos : 0 < entry_price) (hne : entry_price ≠ stop_price) :
    (p_qty_long cfgC1 100 98 = 250 ∧
     broker_comish_long cfgC1 100 98 = 5/4 ∧
     calculate_position_size_long cfgC1 100 98 = 249) ∧
    (p_qty_long cfg entry_price stop_price
       = pyRound (min (tolerated_risk cfg / |entry_price - stop_price|)
           ((⌊account_bal cfg / entry_price⌋ : ℤ) : ℚ)) ∧
     ⌊min (tolerated_risk cfg / |entry_price - stop_price|) (account_bal cfg / entry_price)⌋
       ≤ p_qty_long cfg entry_price stop_price ∧
     p_qty_long cfg entry_price stop_price
       ≤ ⌊min (tolerated_risk cfg / |entry_price - stop_price|)
             (account_bal cfg / entry_price)⌋ + 1) := by
  constructor
  · refine ⟨?_, ?_, ?_⟩ <;>
      norm_num [p_qty_long, tolerated_risk, account_bal, broker_comish_long,
        calculate_position_size_long, min_commission, max_percentage, pyRound, cfgC1]
  · have hb := pyRound_bounds (min (tolerated_risk cfg / |entry_price - stop_price|)
        ((⌊account_bal cfg / entry_price⌋ : ℤ) : ℚ))
    have he : ⌊min (tolerated_risk cfg / |entry_price - stop_price|)
          ((⌊account_bal cfg / entry_price⌋ : ℤ) : ℚ)⌋
        = ⌊min (tolerated_risk cfg / |entry_price - stop_price|)
            (account_bal cfg / entry_price)⌋ := by
      rw [floor_min, floor_min, Int.floor_intCast]
    rw [he] at hb
    exact ⟨rfl, by simpa [p_qty_long] using hb.1, by simpa [p_qty_long] using hb.2⟩

/-- Witness for C1 at the boundary input itself. -/
theorem c1_witness :
    ((0 : ℚ) < 100 ∧ ((100 : ℚ) ≠ 98)) ∧
    ((p_qty_long cfgC1 100 98 = 250 ∧
      broker_comish_long cfgC1 100 98 = 5/4 ∧
      calculate_position_size_long cfgC1 100 98 = 249) ∧
     (p_qty_long cfgC1 100 98
        = pyRound (min (tolerated_risk cfgC1 / |(100 : ℚ) - 98|)
            ((⌊account_bal cfgC1 / 100⌋ : ℤ) : ℚ)) ∧
      ⌊min (tolerated_risk cfgC1 / |(100 : ℚ) - 98|) (account_bal cfgC1 / 100)⌋
        ≤ p_qty_long cfgC1 100 98 ∧
      p_qty_long cfgC1 100 98
        ≤ ⌊min (tolerated_risk cfgC1 / |(100 : ℚ) - 98|) (account_bal cfgC1 / 100)⌋ + 1)) :=
  ⟨⟨by norm_num, by norm_num⟩,
   c1_position_sizing cfgC1 100 98 (by norm_num) (by norm_num)⟩

/-- C8: at `source = [1, 2, 9]`, `period = 3`, the method
`calculate_rma` (pandas EWM) is defined at every index and yields 35/9 at
index 2, whereas the Wilder smoothing the claim (and the library `rma`)
prescribes is undefined before index 2 and seeds index 2 with the arithmetic
mean 4. -/
theorem c8_calculate_rma_failing_input :
    calculate_rma [1, 2, 9] 3 = [1, 4/3, 35/9] ∧
    rma [1, 2, 9] 3 = [none, none, some 4] ∧
    (((1 : ℚ) + 2 + 9) / 3 = 4) ∧ ((35 : ℚ)/9 ≠ 4) := by
  norm_num [calculate_rma, rma, rmaAux, List.replicate]

/-- C9 counterexample: on the constant series `[5, 5, 5]` with period 2 the
smoothed down-move average at the last window is 0, yet the RSI there is NaN
(both averages vanish, `0/0`), not 100. -/
theorem c9_counterexample :
    (sma (rsiDown (npDiff [5, 5, 5])) 2).getD 1 none = some 0 ∧
    (rsi [5, 5, 5] 2).getD 2 none ≠ some 100 ∧
    (rsi [5, 5, 5] 2).getD 2 none = none := by
  have h : (rsi [5, 5, 5] 2).getD 2 none = none := by
    norm_num [rsi, npDiff, rsiUp, rsiDown, sma, rsiVal, List.range_succ]
  refine ⟨?_, by rw [h]; simp, h⟩
  norm_num [rsi, npDiff, rsiUp, rsiDown, sma, rsiVal, List.range_succ]

theorem zip_map_getD (f : Option ℚ → Option ℚ → Option ℚ) (a b : List (Option ℚ))
    (j : ℕ) (ha : j < a.length) (hb : j < b.length) :
    ((a.zip b).map fun p => f p.1 p.2).getD j none = f (a.getD j none) (b.getD j none) := by
  induction a generalizing b j with
  | nil => simp at ha
  | cons x xs ih =>
    cases b with
    | nil => simp at hb
    | cons y ys =>
      cases j with
      | zero => simp
      | succ k =>
        simp only [List.zip_cons_cons, List.map_cons, List.getD_cons_succ]
        exact ih ys k (by simpa using ha) (by simpa using hb)

theorem sma_length (data : List ℚ) (period : ℕ) : (sma data period).length = data.length := by
  simp [sma]

/-- C9 (amended): whenever the smoothed down-move average is zero AND the
smoothed up-move average is nonzero, the RSI saturates at exactly 100; when
both averages are zero the quotient is `0/0` and the RSI is NaN instead. -/
theorem c9_rsi_saturation (data : List ℚ) (period j : ℕ) (u : ℚ)
    (hd : (sma (rsiDown (npDiff data)) period).getD j none = some 0)
    (hu : (sma (rsiUp (npDiff data)) period).getD j none = some u)
    (hu0 : u ≠ 0) :
    (rsi data period).getD (j + 1) none = some 100 := by
  cases data with
  | nil => simp [npDiff, rsiDown, sma] at hd
  | cons x xs =>
    have hjd : j < (sma (rsiDown (npDiff (x :: xs))) period).length := by
      by_contra hcon
      push_neg at hcon
      rw [List.getD_eq_default _ _ hcon] at hd
      exact Option.noConfusion hd
    have hju : j < (sma (rsiUp (npDiff (x :: xs))) period).length := by
      rw [sma_length] at hjd ⊢
      simpa [rsiUp, rsiDown] using hjd
    simp only [rsi, List.getD_cons_succ]
    rw [zip_map_getD rsiVal _ _ j hju hjd, hu, hd]
    simp [rsiVal, hu0]

/-- Witness for C9 on the rising series `[1, 2]` with period 1: the down
average is 0, the up average is 1, and the RSI saturates at 100. -/
theorem c9_witness :
    (sma (rsiDown (npDiff [1, 2])) 1).getD 0 none = some 0 ∧
    (sma (rsiUp (npDiff [1, 2])) 1).getD 0 none = some 1 ∧
    ((1 : ℚ) ≠ 0) ∧
    (rsi [1, 2] 1).getD (0 + 1) none = some 100 := by
  have hd : (sma (rsiDown (npDiff [1, 2])) 1).getD 0 none = some 0 := by
    norm_num [npDiff, rsiDown, sma, List.range_succ]
  have hu : (sma (rsiUp (npDiff [1, 2])) 1).getD 0 none = some 1 := by
    norm_num [npDiff, rsiUp, sma, List.range_succ]
  exact ⟨hd, hu, by norm_num, c9_rsi_saturation [1, 2] 1 0 1 hd hu (by norm_num)⟩

theorem updateFlags_fields (s : EngState) (bar : Bar) (ind : Indicators) :
    (updateFlags s bar ind).close_all = s.close_all ∧
    (updateFlags s bar ind).profit_sig = s.profit_sig ∧
    (updateFlags s bar ind).trade_profits = s.trade_profits ∧
    (updateFlags s bar ind).daily_net_profit = s.daily_net_profit ∧
    (updateFlags s bar ind).last_net_profit = s.last_net_profit ∧
    (updateFlags s bar ind).long_stop = s.long_stop ∧
    (updateFlags s bar ind).long_target = s.long_target ∧
    (updateFlags s bar ind).short_stop = s.short_stop ∧
    (updateFlags s bar ind).short_target = s.short_target ∧
    (updateFlags s bar ind).strategy_position_size = s.strategy_position_size ∧
    (updateFlags s bar ind).strategy_net_profit = s.strategy_net_profit ∧
    (updateFlags s bar ind).strategy_open_profit = s.strategy_open_profit ∧
    (updateFlags s bar ind).bar_index = s.bar_index ∧
    (updateFlags s bar ind).account_balance_dyn = s.account_balance_dyn ∧
    (updateFlags s bar ind).enter = decide (s.strategy_position_size ≠ 0) ∧
    (updateFlags s bar ind).long_e = decide (s.strategy_position_size > 0) ∧
    (updateFlags s bar ind).short_e = decide (s.strategy_position_size < 0) ∧
    (updateFlags s bar ind).vstop_sl_fix
      = (if ind.curr_supertrend_sl.isSome then ind.curr_supertrend_sl else s.vstop_sl_fix) := by
  unfold updateFlags
  simp

theorem entryStage_enter (cfg : Config) (s : EngState) (bar : Bar) (ind : Indicators)
    (h : s.enter = true) : entryStage cfg s bar ind = ⟨s, none, none, []⟩ := by
  unfold entryStage
  simp [h]

theorem entryStage_fields (cfg : Config) (s : EngState) (bar : Bar) (ind : Indicators) :
    (entryStage cfg s bar ind).st.close_all = s.close_all ∧
    (entryStage cfg s bar ind).st.profit_sig = s.profit_sig ∧
    (entryStage cfg s bar ind).st.trade_profits = s.trade_profits ∧
    (entryStage cfg s bar ind).st.daily_net_profit = s.daily_net_profit ∧
    (entryStage cfg s bar ind).st.last_net_profit = s.last_net_profit ∧
    (entryStage cfg s bar ind).st.strategy_net_profit = s.strategy_net_profit ∧
    (entryStage cfg s bar ind).st.strategy_open_profit = s.strategy_open_profit ∧
    (entryStage cfg s bar ind).st.bar_index = s.bar_index ∧
    (entryStage cfg s bar ind).st.account_balance_dyn = s.account_balance_dyn ∧
    (entryStage cfg s bar ind).st.enter = s.enter ∧
    (entryStage cfg s bar ind).st.vstop_sl_fix = s.vstop_sl_fix ∧
    (entryStage cfg s bar ind).sig ≠ some Signal.closeAll := by
  unfold entryStage
  dsimp only
  cases hsl : ind.curr_supertrend_sl <;> dsimp only <;> split_ifs <;> simp

theorem exitStage_fields (cfg : Config) (s : EngState) (bar : Bar) (rsiv : Option ℚ) :
    (exitStage cfg s bar rsiv).st.trade_profits = s.trade_profits ∧
    (exitStage cfg s bar rsiv).st.daily_net_profit = s.daily_net_profit ∧
    (exitStage cfg s bar rsiv).st.last_net_profit = s.last_net_profit ∧
    (exitStage cfg s bar rsiv).st.long_stop = s.long_stop ∧
    (exitStage cfg s bar rsiv).st.long_target = s.long_target ∧
    (exitStage cfg s bar rsiv).st.short_stop = s.short_stop ∧
    (exitStage cfg s bar rsiv).st.short_target = s.short_target ∧
    (exitStage cfg s bar rsiv).st.strategy_net_profit = s.strategy_net_profit ∧
    (exitStage cfg s bar rsiv).st.strategy_open_profit = s.strategy_open_profit ∧
    (exitStage cfg s bar rsiv).st.bar_index = s.bar_index ∧
    (exitStage cfg s bar rsiv).st.account_balance_dyn = s.account_balance_dyn := by
  unfold exitStage
  cases henter : s.enter
  · simp
  · cases hv : s.vstop_sl_fix with
    | none => simp
    | some v =>
      dsimp only
      cases hr : exit_reason_calc cfg s bar v rsiv with
      | none => simp
      | some msg => dsimp only; split_ifs <;> simp

theorem exitStage_spec (cfg : Config) (s : EngState) (bar : Bar) (rsiv : Option ℚ) :
    ((exitStage cfg s bar rsiv).st.close_all = s.close_all ∧
     (exitStage cfg s bar rsiv).sig = none) ∨
    (s.close_all = false ∧ (exitStage cfg s bar rsiv).st.close_all = true ∧
     (exitStage cfg s bar rsiv).sig = some Signal.closeAll) := by
  unfold exitStage
  cases henter : s.enter
  · simp
  · cases hv : s.vstop_sl_fix with
    | none => simp
    | some v =>
      dsimp only
      cases hr : exit_reason_calc cfg s bar v rsiv with
      | none => simp
      | some msg =>
        dsimp only
        by_cases hca : s.close_all = true
        · have hcond : ¬ ((!({ s with profit_sig := exit_profit_sig cfg s }).close_all) = true) := by
            simp [hca]
          rw [if_neg hcond]
          left; simp
        · have hca' : s.close_all = false := by simpa using hca
          have hcond : (!({ s with profit_sig := exit_profit_sig cfg s }).close_all) = true := by
            simp [hca']
          rw [if_pos hcond]
          right; simp [hca']

theorem exitStage_run (cfg : Config) (s : EngState) (bar : Bar) (rsiv : Option ℚ) (v : ℚ)
    (henter : s.enter = true) (hv : s.vstop_sl_fix = some v) (hca : s.close_all = false) :
    (exitStage cfg s bar rsiv).sig
      = (if (exit_reason_calc cfg s bar v rsiv).isSome then some Signal.closeAll else none) ∧
    (exitStage cfg s bar rsiv).ord
      = (exit_reason_calc cfg s bar v rsiv).map fun m => OrderJson.mk ("close_all") m := by
  unfold exitStage
  rw [henter, hv]
  dsimp only
  cases hr : exit_reason_calc cfg s bar v rsiv with
  | none => simp
  | some msg =>
    have hcond : (!({ s with profit_sig := exit_profit_sig cfg s }).close_all) = true := by
      simp [hca]
    dsimp only
    rw [if_pos hcond]
    simp

theorem trail_reason_eq (cfg : Config) (s : EngState) (low high v : ℚ) :
    trail_reason cfg s low high v
      = if trail_long_hit cfg s low v then some ("crossdownStop close_all")
        else if trail_short_hit cfg s high v then some ("crossUpStop close_all")
        else none := by
  unfold trail_reason trail_long_hit trail_short_hit
  cases cfg.use_trailing_stop_loss <;> cases s.long_e <;> cases s.short_e <;>
    split_ifs <;> (try simp_all) <;> (try linarith)

theorem long_tp_reason_eq (s : EngState) (high close : ℚ) (rsiv : Option ℚ)
    (r : Option String) (hca : s.close_all = false) :
    long_tp_reason s high close rsiv r
      = if s.long_e && tp_long_hit s high then some ("crossupTP close_all")
        else if s.long_e && rsi_long_hit s close rsiv then some ("exitRSI close_all")
        else r := by
  unfold long_tp_reason tp_long_hit rsi_long_hit
  rw [hca]
  cases s.long_e <;> cases s.long_target <;> (try dsimp only) <;> split_ifs <;>
    (try simp_all) <;> (try linarith)

theorem short_tp_reason_eq (s : EngState) (low close : ℚ) (rsiv : Option ℚ)
    (r : Option String) (hca : s.close_all = false) :
    short_tp_reason s low close rsiv r
      = if s.short_e && tp_short_hit s low then some ("crossdownTP close_all")
        else if s.short_e && rsi_short_hit s close rsiv then some ("exitRSI close_all")
        else r := by
  unfold short_tp_reason tp_short_hit rsi_short_hit
  rw [hca]
  cases s.short_e <;> cases s.short_target <;> (try dsimp only) <;> split_ifs <;>
    (try simp_all) <;> (try linarith)

theorem exit_reason_last_match (cfg : Config) (s : EngState) (bar : Bar) (v : ℚ)
    (rsiv : Option ℚ) (hca : s.close_all = false) :
    exit_reason_calc cfg s bar v rsiv = last_match_reason cfg s bar v rsiv := by
  unfold exit_reason_calc last_match_reason
  dsimp only
  rw [trail_reason_eq, long_tp_reason_eq s bar.high bar.close rsiv _ hca,
      short_tp_reason_eq s bar.low bar.close rsiv _ hca, hca]
  simp [profit_hit]

theorem core_result (cfg : Config) (s : EngState) (bar : Bar) (ind : Indicators) :
    (core cfg s bar ind).1.state = build_state_dict (core cfg s bar ind).2 ∧
    (core cfg s bar ind).1.error = none := by
  unfold core
  dsimp only
  exact ⟨rfl, rfl⟩

theorem core_books (cfg : Config) (s : EngState) (bar : Bar) (ind : Indicators) :
    (core cfg s bar ind).2.trade_profits = s.trade_profits ∧
    (core cfg s bar ind).2.daily_net_profit = s.daily_net_profit := by
  obtain ⟨-, -, hu3, hu4, -, -, -, -, -, -, -, -, -, -, -, -, -, -⟩ :=
    updateFlags_fields s bar ind
  obtain ⟨-, -, he3, he4, -, -, -, -, -, -, -, -⟩ :=
    entryStage_fields cfg (updateFlags s bar ind) bar ind
  obtain ⟨hx1, hx2, -, -, -, -, -, -, -, -, -⟩ :=
    exitStage_fields cfg (entryStage cfg (updateFlags s bar ind) bar ind).st bar ind.rsi_val
  unfold core
  dsimp only
  exact ⟨by rw [hx1, he3, hu3], by rw [hx2, he4, hu4]⟩

theorem core_close_step (cfg : Config) (s : EngState) (bar : Bar) (ind : Indicators) :
    ((core cfg s bar ind).2.close_all = s.close_all ∧
     (core cfg s bar ind).1.signal ≠ some Signal.closeAll) ∨
    (s.close_all = false ∧ (core cfg s bar ind).2.close_all = true ∧
     (core cfg s bar ind).1.signal = some Signal.closeAll) := by
  obtain ⟨hu1, -, -, -, -, -, -, -, -, -, -, -, -, -, -, -, -, -⟩ :=
    updateFlags_fields s bar ind
  obtain ⟨he1, -, -, -, -, -, -, -, -, -, -, hesig⟩ :=
    entryStage_fields cfg (updateFlags s bar ind) bar ind
  rcases exitStage_spec cfg (entryStage cfg (updateFlags s bar ind) bar ind).st bar
      ind.rsi_val with ⟨hxca, hxsig⟩ | ⟨hxf, hxt, hxsig⟩
  · left
    unfold core
    dsimp only
    constructor
    · rw [hxca, he1, hu1]
    · rw [hxsig]
      simpa using hesig
  · right
    unfold core
    dsimp only
    refine ⟨?_, hxt, ?_⟩
    · rw [← hu1, ← he1]; exact hxf
    · rw [hxsig]; simp

theorem core_keeps_stops (cfg : Config) (s : EngState) (bar : Bar) (ind : Indicators)
    (hpos : s.strategy_position_size ≠ 0) :
    (core cfg s bar ind).2.long_stop = s.long_stop ∧
    (core cfg s bar ind).2.long_target = s.long_target ∧
    (core cfg s bar ind).2.short_stop = s.short_stop ∧
    (core cfg s bar ind).2.short_target = s.short_target := by
  obtain ⟨-, -, -, -, -, hu6, hu7, hu8, hu9, -, -, -, -, -, hent, -, -, -⟩ :=
    updateFlags_fields s bar ind
  have henter : (updateFlags s bar ind).enter = true := by
    rw [hent]; simpa using hpos
  obtain ⟨-, -, -, hx4, hx5, hx6, hx7, -, -, -, -⟩ :=
    exitStage_fields cfg (updateFlags s bar ind) bar ind.rsi_val
  unfold core
  dsimp only
  rw [entryStage_enter cfg _ bar ind henter]
  dsimp only
  exact ⟨by rw [hx4, hu6], by rw [hx5, hu7], by rw [hx6, hu8], by rw [hx7, hu9]⟩

/-- C5: every call returns a result whose state is the freshly built snapshot
of the final engine state (the modelled snapshot is total by construction,
mirroring the source building it on every path including the exception
handlers), and a failure reported in `error` comes with no signal. -/
theorem c5_state_snapshot (cfg : Config) (s : EngState) (inp : BarInput) (hist : HistInput)
    (ind : Indicators) (fault : Option String) :
    (process_bar cfg s inp hist ind fault).1.state
      = build_state_dict (process_bar cfg s inp hist ind fault).2 ∧
    ((process_bar cfg s inp hist ind fault).1.error ≠ none →
      (process_bar cfg s inp hist ind fault).1.signal = none) := by
  cases fault <;>
    · unfold process_bar
      dsimp only
      split_ifs <;> first
        | exact ⟨rfl, fun _ => rfl⟩
        | exact ⟨(core_result cfg _ inp.bar ind).1,
            fun hne => absurd (core_result cfg _ inp.bar ind).2 hne⟩

/-- C6: with valid inputs but a history window shorter than the
required-history threshold (max of the active lookbacks plus the fixed
50-bar buffer), `process_bar` returns the error string, no signal, a fresh
state snapshot, and leaves the engine state untouched. -/
theorem c6_insufficient_history (cfg : Config) (s : EngState) (inp : BarInput)
    (hist : HistInput) (ind : Indicators) (fault : Option String)
    (hf : required_bar_fields.filter (fun f => !inp.fields.contains f) = [])
    (hc : required_hist_columns.filter (fun c => !hist.columns.contains c) = [])
    (hlen : hist.len < required_history cfg s.tf_int) :
    process_bar cfg s inp hist ind fault
      = ({ signal := none, order_details := none, state := build_state_dict s,
           alerts := [], error := some ("Insufficient historical data") }, s) := by
  unfold process_bar
  rw [if_neg (show ¬ required_bar_fields.filter (fun f => !inp.fields.contains f) ≠ []
        from by rw [hf]; simp),
      if_neg (show ¬ required_hist_columns.filter (fun c => !hist.columns.contains c) ≠ []
        from by rw [hc]; simp),
      if_pos hlen]

/-- Witness for C6: the default configuration needs 64 bars and the call is
made with a 10-bar history. -/
theorem c6_witness :
    required_bar_fields.filter (fun f => !inpC3.fields.contains f) = [] ∧
    required_hist_columns.filter (fun c => !histC6.columns.contains c) = [] ∧
    histC6.len < required_history cfgC1 baseState.tf_int ∧
    process_bar cfgC1 baseState inpC3 histC6 indC3 none
      = ({ signal := none, order_details := none, state := build_state_dict baseState,
           alerts := [], error := some ("Insufficient historical data") }, baseState) := by
  refine ⟨by decide, by decide, by decide, ?_⟩
  exact c6_insufficient_history cfgC1 baseState inpC3 histC6 indC3 none
    (by decide) (by decide) (by decide)

theorem process_bar_close_step (cfg : Config) (s : EngState) (inp : BarInput)
    (hist : HistInput) (ind : Indicators) (fault : Option String)
    (hnr : ¬ inp.bar.date > hist.prev_date) :
    ((process_bar cfg s inp hist ind fault).2.close_all = s.close_all ∧
     (process_bar cfg s inp hist ind fault).1.signal ≠ some Signal.closeAll) ∨
    (s.close_all = false ∧ (process_bar cfg s inp hist ind fault).2.close_all = true ∧
     (process_bar cfg s inp hist ind fault).1.signal = some Signal.closeAll) := by
  have hres : ¬ (hist.len > 1 ∧ hist.columns.contains ("timestamp" : String) = true
      ∧ inp.bar.date > hist.prev_date) := fun h => hnr h.2.2
  cases fault <;>
    · unfold process_bar
      dsimp only
      simp only [if_neg hres]
      split_ifs <;> first
        | (left; exact ⟨rfl, by simp⟩)
        | exact core_close_step cfg _ inp.bar ind

theorem runBars_close_aux (cfg : Config) (calls : List BarCall) (s : EngState)
    (hnr : ∀ c ∈ calls, ¬ c.inp.bar.date > c.hist.prev_date) :
    (s.close_all = true →
      ((runBars cfg s calls).1.countP fun r => decide (r.signal = some Signal.closeAll)) = 0) ∧
    ((runBars cfg s calls).1.countP fun r => decide (r.signal = some Signal.closeAll)) ≤ 1 := by
  induction calls generalizing s with
  | nil => simp [runBars]
  | cons c rest ih =>
    have hstep := process_bar_close_step cfg s c.inp c.hist c.ind c.fault
      (hnr c (by simp))
    have ihr := ih (process_bar cfg s c.inp c.hist c.ind c.fault).2
      (fun x hx => hnr x (by simp [hx]))
    rcases hstep with ⟨hpres, hsig⟩ | ⟨hfalse, htrue, hsig⟩
    · constructor
      · intro hca
        simp only [runBars, List.countP_cons]
        rw [ihr.1 (by rw [hpres, hca])]
        simp [hsig]
      · simp only [runBars, List.countP_cons]
        have := ihr.2
        simp [hsig]
        omega
    · constructor
      · intro hca
        rw [hfalse] at hca
        exact absurd hca (by simp)
      · simp only [runBars, List.countP_cons]
        rw [ihr.1 htrue]
        simp [hsig]

/-- C10: between one daily reset and the next (no date boundary inside the
run), the engine emits at most one CLOSE_ALL in total — once an exit fires
the `close_all` latch blocks every later exit until a reset clears it. -/
theorem c10_single_close_between_resets (cfg : Config) (s : EngState) (calls : List BarCall)
    (hnr : ∀ c ∈ calls, ¬ c.inp.bar.date > c.hist.prev_date) :
    ((runBars cfg s calls).1.countP fun r => decide (r.signal = some Signal.closeAll)) ≤ 1 :=
  (runBars_close_aux cfg calls s hnr).2

/-- Witness for C10: replay the double-exit bar twice on the same date;
despite exit conditions holding on both bars at most one CLOSE_ALL is sent. -/
theorem c10_witness :
    (∀ c ∈ [callC10, callC10], ¬ c.inp.bar.date > c.hist.prev_date) ∧
    ((runBars cfgC3 sC3 [callC10, callC10]).1.countP
        fun r => decide (r.signal = some Signal.closeAll)) ≤ 1 :=
  ⟨by decide, c10_single_close_between_resets cfgC3 sC3 [callC10, callC10] (by decide)⟩

/-- C4: with valid input and sufficient history, a bar whose calendar date
exceeds the date of the previous bar triggers exactly one reset — the prior
daily net P&L is appended to the trade-profit history and the reset zeroes the
daily accumulator; a same-date bar leaves the history untouched and the
accumulator is only adjusted by the per-bar P&L delta, never zeroed. -/
theorem c4_daily_reset_boundary (cfg : Config) (s : EngState) (inp : BarInput)
    (hist : HistInput) (ind : Indicators) (fault : Option String)
    (hf : required_bar_fields.filter (fun f => !inp.fields.contains f) = [])
    (hc : required_hist_columns.filter (fun c => !hist.columns.contains c) = [])
    (hlen : ¬ hist.len < required_history cfg s.tf_int)
    (h1 : hist.len > 1) (hts : hist.columns.contains ("timestamp" : String) = true) :
    (inp.bar.date > hist.prev_date →
      (process_bar cfg s inp hist ind fault).2.trade_profits
        = s.trade_profits ++ [s.daily_net_profit] ∧
      (daily_reset s).daily_net_profit = 0) ∧
    (¬ inp.bar.date > hist.prev_date →
      (process_bar cfg s inp hist ind fault).2.trade_profits = s.trade_profits ∧
      (process_bar cfg s inp hist ind fault).2.daily_net_profit
        = s.daily_net_profit
          + (s.strategy_net_profit + s.strategy_open_profit - s.last_net_profit)) := by
  constructor
  · intro hd
    refine ⟨?_, rfl⟩
    cases fault <;>
      · unfold process_bar
        rw [if_neg (show ¬ required_bar_fields.filter (fun f => !inp.fields.contains f) ≠ []
              from by rw [hf]; simp),
            if_neg (show ¬ required_hist_columns.filter
                (fun c => !hist.columns.contains c) ≠ [] from by rw [hc]; simp),
            if_neg hlen]
        dsimp only
        simp only [if_pos (show hist.len > 1 ∧ hist.columns.contains ("timestamp" : String)
            = true ∧ inp.bar.date > hist.prev_date from ⟨h1, hts, hd⟩)]
        split_ifs <;> first
          | rfl
          | (rw [(core_books cfg _ inp.bar ind).1]; rfl)
  · intro hd
    have hres : ¬ (hist.len > 1 ∧ hist.columns.contains ("timestamp" : String) = true
        ∧ inp.bar.date > hist.prev_date) := fun h => hd h.2.2
    cases fault <;>
      · unfold process_bar
        rw [if_neg (show ¬ required_bar_fields.filter (fun f => !inp.fields.contains f) ≠ []
              from by rw [hf]; simp),
            if_neg (show ¬ required_hist_columns.filter
                (fun c => !hist.columns.contains c) ≠ [] from by rw [hc]; simp),
            if_neg hlen]
        dsimp only
        simp only [if_neg hres]
        split_ifs <;> first
          | exact ⟨rfl, rfl⟩
          | exact ⟨by rw [(core_books cfg _ inp.bar ind).1],
                   by rw [(core_books cfg _ inp.bar ind).2]⟩

/-- Witness for C4: prior-day P&L 7 with history [3]. A next-day bar (date
6 after 5) appends: history becomes [3, 7] and the reset zeroes the
accumulator; a same-date bar keeps history [3] and merely adds the P&L
delta 2 + 1 - 0 to the accumulator. -/
theorem c4_witness :
    required_bar_fields.filter (fun f => !inpC4a.fields.contains f) = [] ∧
    required_hist_columns.filter (fun c => !histC3.columns.contains c) = [] ∧
    (¬ histC3.len < required_history cfgC4 sC4.tf_int) ∧
    histC3.len > 1 ∧ histC3.columns.contains ("timestamp" : String) = true ∧
    ((6 : ℤ) > 5) ∧ (¬ (5 : ℤ) > 5) ∧
    (process_bar cfgC4 sC4 inpC4a histC3 indC3 none).2.trade_profits = [3, 7] ∧
    (daily_reset sC4).daily_net_profit = 0 ∧
    (process_bar cfgC4 sC4 inpC4b histC3 indC3 none).2.trade_profits = [3] ∧
    (process_bar cfgC4 sC4 inpC4b histC3 indC3 none).2.daily_net_profit = 10 := by
  have ha := (c4_daily_reset_boundary cfgC4 sC4 inpC4a histC3 indC3 none
    (by decide) (by decide) (by decide) (by decide) (by decide)).1 (by decide)
  have hb := (c4_daily_reset_boundary cfgC4 sC4 inpC4b histC3 indC3 none
    (by decide) (by decide) (by decide) (by decide) (by decide)).2 (by decide)
  refine ⟨by decide, by decide, by decide, by decide, by decide, by decide, by decide,
    ?_, ha.2, ?_, ?_⟩
  · rw [ha.1]; norm_num [sC4, baseState]
  · rw [hb.1]; norm_num [sC4, baseState]
  · rw [hb.2]; norm_num [sC4, baseState]

/-- C3 (amended): when the exit block runs on a non-flat position with the
`close_all` latch clear and a defined trailing value, exactly one CLOSE_ALL
is emitted iff any exit check matches, and the close reason is the LAST
matching check in source order — the take-profit/RSI blocks override the
profit-threshold check, which overrides the trailing-stop check (within a
take-profit block the touch beats the RSI variant). -/
theorem c3_close_priority (cfg : Config) (s : EngState) (bar : Bar) (rsiv : Option ℚ)
    (v : ℚ) (henter : s.enter = true) (hv : s.vstop_sl_fix = some v)
    (hca : s.close_all = false) :
    exit_reason_calc cfg s bar v rsiv = last_match_reason cfg s bar v rsiv ∧
    (exitStage cfg s bar rsiv).sig
      = (if (last_match_reason cfg s bar v rsiv).isSome then some Signal.closeAll else none) ∧
    (exitStage cfg s bar rsiv).ord
      = (last_match_reason cfg s bar v rsiv).map fun m => OrderJson.mk ("close_all") m := by
  have hlm := exit_reason_last_match cfg s bar v rsiv hca
  have hrun := exitStage_run cfg s bar rsiv v henter hv hca
  exact ⟨hlm, by rw [hrun.1, hlm], by rw [hrun.2, hlm]⟩

/-- Witness for C3 on the concrete double-exit state. -/
theorem c3_witness :
    sC3e.enter = true ∧ sC3e.vstop_sl_fix = some 10 ∧ sC3e.close_all = false ∧
    (exit_reason_calc cfgC3 sC3e barC3 10 none = last_match_reason cfgC3 sC3e barC3 10 none ∧
     (exitStage cfgC3 sC3e barC3 none).sig
       = (if (last_match_reason cfgC3 sC3e barC3 10 none).isSome
          then some Signal.closeAll else none) ∧
     (exitStage cfgC3 sC3e barC3 none).ord
       = (last_match_reason cfgC3 sC3e barC3 10 none).map
           fun m => OrderJson.mk ("close_all") m) := by
  have h1 : sC3e.enter = true := rfl
  have h2 : sC3e.vstop_sl_fix = some 10 := rfl
  have h3 : sC3e.close_all = false := rfl
  exact ⟨h1, h2, h3, c3_close_priority cfgC3 sC3e barC3 none 10 h1 h2 h3⟩

set_option maxHeartbeats 1000000 in
/-- C3 counterexample: on a bar where the long trailing stop is breached
(low 9 ≤ 10, trailing mode on) and the take-profit target is touched
(high 13 ≥ 12) simultaneously, exactly one CLOSE_ALL fires but the close
action carries the take-profit reason, not the first-matching
trailing-stop reason the claim prescribes. -/
theorem c3_counterexample :
    cfgC3.use_trailing_stop_loss = true ∧
    sC3.strategy_position_size > 0 ∧
    barC3.low ≤ 10 ∧ indC3.curr_supertrend_sl = some 10 ∧
    sC3.long_target = some 12 ∧ barC3.high ≥ 12 ∧
    (process_bar cfgC3 sC3 inpC3 histC3 indC3 none).1.signal = some Signal.closeAll ∧
    (process_bar cfgC3 sC3 inpC3 histC3 indC3 none).1.order_details
      = some ⟨("close_all"), ("crossupTP close_all")⟩ ∧
    (("crossupTP close_all") : String) ≠ ("crossdownStop close_all") := by
  refine ⟨rfl, by norm_num [sC3, baseState], by norm_num [barC3], rfl, rfl,
          by norm_num [barC3], ?_, ?_, by decide⟩ <;>
    norm_num +decide [process_bar, core, updateFlags, entryStage, exitStage,
      exit_reason_calc, trail_reason, long_tp_reason, short_tp_reason, profit_break,
      exit_profit_sig, check_support_resistance_squeeze, check_volume_conditions,
      required_history, required_bar_fields, required_hist_columns, adjust_timeframe,
      account_bal, build_state_dict, cfgC3, sC3, inpC3, histC3, indC3, barC3, baseState,
      oLT, oGT, oLE, oGE]

/-- C7 (amended): the long/short stop and target fields are cleared exactly
at the daily reset; while a position is open the per-bar decision core never
touches them, so a completed exit leaves the position Flat with the stale
stop/target still populated, and a rejected entry (computed size ≤ 0)
likewise leaves the freshly written stop/target behind while Flat. -/
theorem c7_stop_lifecycle (cfg : Config) (s : EngState) (bar : Bar) (ind : Indicators)
    (hpos : s.strategy_position_size ≠ 0) :
    ((daily_reset s).long_stop = none ∧ (daily_reset s).long_target = none ∧
     (daily_reset s).short_stop = none ∧ (daily_reset s).short_target = none) ∧
    ((core cfg s bar ind).2.long_stop = s.long_stop ∧
     (core cfg s bar ind).2.long_target = s.long_target ∧
     (core cfg s bar ind).2.short_stop = s.short_stop ∧
     (core cfg s bar ind).2.short_target = s.short_target) :=
  ⟨⟨rfl, rfl, rfl, rfl⟩, core_keeps_stops cfg s bar ind hpos⟩

/-- Witness for C7 on the open long position. -/
theorem c7_witness :
    sC3.strategy_position_size ≠ 0 ∧
    (((daily_reset sC3).long_stop = none ∧ (daily_reset sC3).long_target = none ∧
      (daily_reset sC3).short_stop = none ∧ (daily_reset sC3).short_target = none) ∧
     ((core cfgC3 sC3 barC3 indC3).2.long_stop = sC3.long_stop ∧
      (core cfgC3 sC3 barC3 indC3).2.long_target = sC3.long_target ∧
      (core cfgC3 sC3 barC3 indC3).2.short_stop = sC3.short_stop ∧
      (core cfgC3 sC3 barC3 indC3).2.short_target = sC3.short_target)) := by
  have hpos : sC3.strategy_position_size ≠ 0 := by norm_num [sC3, baseState]
  exact ⟨hpos, c7_stop_lifecycle cfgC3 sC3 barC3 indC3 hpos⟩

set_option maxHeartbeats 1000000 in
/-- C7 counterexample: a long entry attempt on a 100-currency account
computes size 0 and is rejected inside the entry block, after the stop and
target were already written — the call returns no signal and leaves the
position Flat, yet `long_stop = 9.98` and `long_target = 10.03` remain
defined, contradicting the claim that stop/target are undefined after every
call that leaves the position Flat. -/
theorem c7_counterexample :
    (process_bar cfgC7 baseState inpC7 histC7 indC7 none).2.strategy_position_size = 0 ∧
    (process_bar cfgC7 baseState inpC7 histC7 indC7 none).2.long_e = false ∧
    (process_bar cfgC7 baseState inpC7 histC7 indC7 none).2.short_e = false ∧
    (process_bar cfgC7 baseState inpC7 histC7 indC7 none).1.signal = none ∧
    (process_bar cfgC7 baseState inpC7 histC7 indC7 none).2.long_stop = some (499/50) ∧
    (process_bar cfgC7 baseState inpC7 histC7 indC7 none).2.long_target
      = some (1003/100) := by
  norm_num +decide [process_bar, core, updateFlags, entryStage, exitStage,
    exit_reason_calc, trail_reason, long_tp_reason, short_tp_reason, profit_break,
    exit_profit_sig, check_support_resistance_squeeze, check_volume_conditions,
    required_history, required_bar_fields, required_hist_columns, adjust_timeframe,
    account_bal, build_state_dict, calculate_position_size_long, broker_comish_long,
    p_qty_long, tolerated_risk, min_commission, max_percentage, volume_multiplier,
    pyRound, cfgC7, inpC7, histC7, indC7, barC7, baseState, oLT, oGT, oLE, oGE]
